import Mathlib

/-!
Verification of the Explainify micro API (`app/main.py`) against its
specification. The Python string operations are modelled over `List Char`
(`str.strip`, `str.upper`, `str.lower`, `str.startswith`, `str.split("\n")`,
`str.replace("\r", "")`), and the `/explain` endpoint is modelled as a pure
function taking the completion service as an oracle parameter.
-/

namespace Explainify

/-- Whitespace characters stripped by Python `str.strip()` (ASCII range). -/
def isPySpace (c : Char) : Bool :=
  c = ' ' || c = '\t' || c = '\n' || c = '\x0b' || c = '\x0c' || c = '\r'

/-- Strip leading and trailing whitespace from a character list. -/
def stripL (cs : List Char) : List Char :=
  ((cs.dropWhile isPySpace).reverse.dropWhile isPySpace).reverse

/-- Python `s.strip()`. -/
def pstrip (s : String) : String :=
  String.mk (stripL s.data)

/-- Python `s.upper()` (ASCII). -/
def pupper (s : String) : String :=
  String.mk (s.data.map Char.toUpper)

/-- Python `s.lower()` (ASCII). -/
def plower (s : String) : String :=
  String.mk (s.data.map Char.toLower)

/-- Python `s[1:]`. -/
def dropOne (s : String) : String :=
  String.mk (s.data.drop 1)

/-- Boolean list-prefix test: `startsWithL s p` is true when `p` is an
initial segment of `s`. -/
def startsWithL : List Char → List Char → Bool
  | _, [] => true
  | [], _ :: _ => false
  | c :: cs, p :: ps => c = p && startsWithL cs ps

/-- Python `s.startswith(p)`. -/
def startsWithS (s p : String) : Bool :=
  startsWithL s.data p.data

/-- Boolean contiguous-sublist test, used to state that the user prompt
contains the input text verbatim. -/
def containsL : List Char → List Char → Bool
  | [], p => startsWithL [] p
  | c :: rest, p => startsWithL (c :: rest) p || containsL rest p

/-- Split a character list on the newline character; Python `s.split("\n")`
semantics (the empty string yields one empty field). -/
def splitOnNl : List Char → List (List Char)
  | [] => [[]]
  | c :: cs =>
    match splitOnNl cs with
    | [] => []
    | r :: rs => if c = '\n' then [] :: r :: rs else (c :: r) :: rs

/-- Python `s.split("\n")`. -/
def splitNl (s : String) : List String :=
  (splitOnNl s.data).map String.mk

/-- Python `s.replace("\r", "")`. -/
def removeCr (s : String) : String :=
  String.mk (s.data.filter (fun c => !(c = '\r')))

/-- The parser state (`current` in the source): `none` before any label. -/
inductive ParserSection where
  | none
  | summary
  | explanation
  | keypoints
  deriving DecidableEq

/-- The mutable loop state of the parsing loop: the `sections` dict plus
`current`. -/
structure Acc where
  summary : String
  explanation : String
  keypoints : List String
  current : ParserSection
  deriving DecidableEq

/-- Initial loop state: empty accumulators, `current = None`. -/
def initAcc : Acc :=
  { summary := "", explanation := "", keypoints := [], current := ParserSection.none }

/-- Python `l.upper().startswith("SUMMARY")` for `l = line.strip()`. -/
def isSummaryLabel (line : String) : Bool :=
  startsWithS (pupper (pstrip line)) "SUMMARY"

/-- Python `l.upper().startswith("EXPLANATION")` for `l = line.strip()`. -/
def isExplanationLabel (line : String) : Bool :=
  startsWithS (pupper (pstrip line)) "EXPLANATION"

/-- Python `l.upper().startswith("KEY POINTS")` for `l = line.strip()`. -/
def isKeyPointsLabel (line : String) : Bool :=
  startsWithS (pupper (pstrip line)) "KEY POINTS"

/-- A line is a label line when any of the three label tests fires. -/
def isLabel (line : String) : Bool :=
  isSummaryLabel line || isExplanationLabel line || isKeyPointsLabel line

/-- One iteration of the parsing loop of `explain` (source lines 123-144). -/
def stepLine (acc : Acc) (line : String) : Acc :=
  if isSummaryLabel line then { acc with current := ParserSection.summary }
  else if isExplanationLabel line then { acc with current := ParserSection.explanation }
  else if isKeyPointsLabel line then { acc with current := ParserSection.keypoints }
  else
    match acc.current with
    | ParserSection.summary =>
        if pstrip line = "" then acc
        else { acc with summary := acc.summary ++ pstrip line ++ " " }
    | ParserSection.explanation =>
        if pstrip line = "" then acc
        else { acc with explanation := acc.explanation ++ pstrip line ++ " " }
    | ParserSection.keypoints =>
        if startsWithS (pstrip line) "-" then
          { acc with keypoints := acc.keypoints ++ [pstrip (dropOne (pstrip line))] }
        else acc
    | ParserSection.none => acc

/-- The parsed document the endpoint returns (minus the echoed level). -/
structure ParseResult where
  summary : String
  explanation : String
  key_points : List String
  deriving DecidableEq

/-- Fallback summary text (source line 148). -/
def fallbackSummary : String := "Summary unavailable."

/-- Fallback explanation text (source line 151). -/
def fallbackExplanation : String := "Explanation unavailable."

/-- Fallback key-point placeholder (source line 154). -/
def fallbackKeyPoint : String := "No key points available."

/-- Safe fallbacks plus final `.strip()` calls (source lines 146-162). -/
def applyFallbacks (acc : Acc) : ParseResult :=
  { summary := pstrip (if pstrip acc.summary = "" then fallbackSummary else acc.summary)
  , explanation :=
      pstrip (if pstrip acc.explanation = "" then fallbackExplanation else acc.explanation)
  , key_points := if acc.keypoints = [] then [fallbackKeyPoint] else acc.keypoints }

/-- The response parser of `explain` (source lines 119-162): normalize line
terminators, run the line state machine, apply fallbacks, strip. -/
def parse (content : String) : ParseResult :=
  applyFallbacks (List.foldl stepLine initAcc (splitNl (removeCr content)))

/-- The contribution of one line in the KEYPOINTS state: a new entry when
the stripped line starts with a dash, nothing otherwise. -/
def keypointEntry (line : String) : Option String :=
  if startsWithS (pstrip line) "-" then some (pstrip (dropOne (pstrip line))) else none

/-- Allowed complexity levels (source line 22). -/
def VALID_LEVELS : List String := ["beginner", "intermediate", "advanced"]

/-- Beginner framing instruction (source lines 69-72). -/
def beginnerInstruction : String :=
  "Explain this as if to a smart 12-year-old. Use simple language and short sentences."

/-- Intermediate framing instruction (source lines 73-76). -/
def intermediateInstruction : String :=
  "Explain this to a college student. Be structured, clear, and reduce jargon."

/-- Advanced framing instruction (source lines 77-80). -/
def advancedInstruction : String :=
  "Explain this to someone with strong domain familiarity. Use technical detail but stay concise."

/-- The `level_instructions` dict (source lines 68-81); lookup of a missing
key is a `none` (Python `KeyError`). -/
def level_instructions (level : String) : Option String :=
  if level = "beginner" then some beginnerInstruction
  else if level = "intermediate" then some intermediateInstruction
  else if level = "advanced" then some advancedInstruction
  else none

/-- The constant system prompt (source lines 83-95). -/
def system_prompt : String :=
  "You are an expert explanation engine.\nFollow this structure strictly:\n\nSUMMARY:\nA 2–3 sentence summary.\n\nEXPLANATION:\nA deeper explanation adapted to the requested complexity level.\n\nKEY POINTS:\n- bullet 1\n- bullet 2\n- bullet 3\n\nBe accurate and avoid hallucinations."

/-- The user prompt built from a framing instruction and the request text
(source lines 97-101). -/
def mkUserPrompt (instr text : String) : String :=
  instr ++ "\n\nText:\n" ++ text ++ "\n\nReturn EXACTLY using the structure provided."

/-- The Prompt Builder contract of the spec: given text and a (normalized)
level, produce the system and user instructions, failing on an unknown
level exactly where the dict lookup would. -/
def build (text level : String) : Option (String × String) :=
  match level_instructions level with
  | some instr => some (system_prompt, mkUserPrompt instr text)
  | none => none

/-- The incoming request body: `text` plus a `level` defaulting to
"intermediate" upstream. -/
structure ExplainRequest where
  text : String
  level : String
  deriving DecidableEq

/-- The error taxonomy of the endpoint, by HTTP status: 401, 400, 500. -/
inductive ApiError where
  | unauthorized (detail : String)
  | badRequest (detail : String)
  | serverError (detail : String)
  deriving DecidableEq

/-- Model of `verify_api_key` (source lines 37-41): dev mode when no
internal key is configured, otherwise an equality check against the
presented header. -/
def verify_api_key (internalApiKey xApiKey : Option String) : Except ApiError Unit :=
  match internalApiKey with
  | Option.none => Except.ok ()
  | Option.some k =>
      if xApiKey = Option.some k then Except.ok ()
      else Except.error (ApiError.unauthorized ("Invalid or missing API key"))

/-- The pre-upstream part of `explain` (source lines 50-101): authorization,
text validation, level validation, prompt construction. Returns the
normalized level with the two prompts on success. -/
def validateAndBuild (internalApiKey xApiKey : Option String) (req : ExplainRequest) :
    Except ApiError (String × String × String) :=
  match verify_api_key internalApiKey xApiKey with
  | Except.error e => Except.error e
  | Except.ok _ =>
    if pstrip req.text = "" then Except.error (ApiError.badRequest ("Text cannot be empty."))
    else
      if plower req.level ∈ VALID_LEVELS then
        match level_instructions (plower req.level) with
        | some instr =>
            Except.ok (plower req.level, system_prompt, mkUserPrompt instr req.text)
        | none => Except.error (ApiError.serverError ("KeyError"))
      else
        Except.error
          (ApiError.badRequest ("Invalid level. Choose: beginner, intermediate, or advanced."))

/-- The `/explain` handler (source lines 49-162), with the completion
service as an oracle parameter: it receives the system and user prompts and
returns either a failure message or an optional content string (a `None`
content is replaced by the empty string, source line 116). -/
def explain (internalApiKey xApiKey : Option String) (req : ExplainRequest)
    (complete : String → String → Except String (Option String)) :
    Except ApiError (String × ParseResult) :=
  match validateAndBuild internalApiKey xApiKey req with
  | Except.error e => Except.error e
  | Except.ok (level, sys, usr) =>
    match complete sys usr with
    | Except.error e => Except.error (ApiError.serverError ("LLM call failed: " ++ e))
    | Except.ok mc => Except.ok (level, parse (mc.getD ("")))

/-- A concrete completion oracle used to instantiate witnesses. -/
def sampleComplete : String → String → Except String (Option String) :=
  fun _ _ => Except.ok (some (""))

lemma isLabel_false {line : String} (h : isLabel line = false) :
    isSummaryLabel line = false ∧ isExplanationLabel line = false ∧
      isKeyPointsLabel line = false := by
  have h' : (isSummaryLabel line = false ∧ isExplanationLabel line = false) ∧
      isKeyPointsLabel line = false := by simpa [isLabel] using h
  exact ⟨h'.1.1, h'.1.2, h'.2⟩

lemma stepLine_none (acc : Acc) (line : String) (hcur : acc.current = ParserSection.none)
    (h : isLabel line = false) : stepLine acc line = acc := by
  obtain ⟨hs, he, hk⟩ := isLabel_false h
  obtain ⟨s, e, kp, cur⟩ := acc
  simp only [Acc.current] at hcur
  subst hcur
  simp [stepLine, hs, he, hk]

lemma stepLine_keypoints (acc : Acc) (line : String)
    (hcur : acc.current = ParserSection.keypoints) (h : isLabel line = false) :
    stepLine acc line = { acc with keypoints := acc.keypoints ++ (keypointEntry line).toList } := by
  obtain ⟨hs, he, hk⟩ := isLabel_false h
  obtain ⟨s, e, kp, cur⟩ := acc
  simp only [Acc.current] at hcur
  subst hcur
  by_cases hd : startsWithS (pstrip line) "-" = true <;>
    simp [stepLine, keypointEntry, hs, he, hk, hd]

lemma foldl_no_label (lines : List String) (h : ∀ l ∈ lines, isLabel l = false) :
    List.foldl stepLine initAcc lines = initAcc := by
  induction lines with
  | nil => rfl
  | cons a t ih =>
    rw [List.foldl_cons, stepLine_none initAcc a rfl (h a (List.mem_cons_self a t))]
    exact ih (fun l hl => h l (List.mem_cons_of_mem a hl))

/-- Claim C1: the response parser is total — being a Lean function it can
raise no exception — and for every input string (empty, label-free, or with
labels in any order) the parsed summary and explanation are non-empty
strings and the key-points sequence is non-empty. -/
theorem parse_total_wellformed (content : String) :
    (parse content).summary ≠ "" ∧ (parse content).explanation ≠ "" ∧
      (parse content).key_points ≠ [] := by
  unfold parse
  generalize List.foldl stepLine initAcc (splitNl (removeCr content)) = acc
  refine ⟨?_, ?_, ?_⟩
  · by_cases h : pstrip acc.summary = ""
    · simp [applyFallbacks, h]
      decide
    · simp [applyFallbacks, h]
  · by_cases h : pstrip acc.explanation = ""
    · simp [applyFallbacks, h]
      decide
    · simp [applyFallbacks, h]
  · by_cases h : acc.keypoints = []
    · simp [applyFallbacks, h]
    · simp [applyFallbacks, h]

/-- Claim C2: on any input in which no line passes any of the three label
tests, the parser returns exactly the fixed fallback summary, the fixed
fallback explanation, and the single-element fallback key-points
sequence. -/
theorem parse_no_labels (content : String)
    (h : ∀ line ∈ splitNl (removeCr content), isLabel line = false) :
    parse content =
      { summary := fallbackSummary, explanation := fallbackExplanation
      , key_points := [fallbackKeyPoint] } := by
  unfold parse
  rw [foldl_no_label _ h]
  decide

/-- Witness for C2 at the empty input string. -/
theorem parse_no_labels_witness :
    parse ("") =
      { summary := fallbackSummary, explanation := fallbackExplanation
      , key_points := [fallbackKeyPoint] } :=
  parse_no_labels ("") (by decide)

/-- Claim C3: the three-section scenario input parses to the flattened
summary and explanation paragraphs and the three key points in order. -/
theorem parse_scenario_three_sections :
    parse ("SUMMARY:\nCats are mammals.\n\nEXPLANATION:\nThey are carnivorous.\nThey are domesticated.\n\nKEY POINTS:\n- Carnivorous\n- Domesticated\n- Popular pets") =
      { summary := "Cats are mammals."
      , explanation := "They are carnivorous. They are domesticated."
      , key_points := ["Carnivorous", "Domesticated", "Popular pets"] } := by
  decide

/-- Claim C4: folding the parser from the KEYPOINTS state over any sequence
of non-label lines appends, in source order, exactly one entry per line
whose stripped form starts with a dash (the entry being that line with the
dash removed and whitespace trimmed), and silently ignores every other
line. -/
theorem keypoints_lines (acc : Acc) (lines : List String)
    (hcur : acc.current = ParserSection.keypoints) (h : ∀ l ∈ lines, isLabel l = false) :
    (List.foldl stepLine acc lines).keypoints =
      acc.keypoints ++ lines.filterMap keypointEntry := by
  induction lines generalizing acc with
  | nil => simp
  | cons a t ih =>
    have ha := h a (List.mem_cons_self a t)
    have ht : ∀ l ∈ t, isLabel l = false := fun l hl => h l (List.mem_cons_of_mem a hl)
    rw [List.foldl_cons, stepLine_keypoints acc a hcur ha,
      ih { acc with keypoints := acc.keypoints ++ (keypointEntry a).toList } hcur ht]
    cases hE : keypointEntry a <;> simp [List.filterMap_cons, hE]

/-- Witness for C4: the lines dash a, dash b, dash c yield the ordered
entries a, b, c. -/
theorem keypoints_lines_witness :
    (List.foldl stepLine { initAcc with current := ParserSection.keypoints }
      ["- a", "- b", "- c"]).keypoints = ["a", "b", "c"] :=
  (keypoints_lines { initAcc with current := ParserSection.keypoints }
    ["- a", "- b", "- c"] rfl (by decide)).trans (by decide)

lemma startsWithL_append (t b : List Char) : startsWithL (t ++ b) t = true := by
  induction t with
  | nil => cases b <;> rfl
  | cons c cs ih => simp [startsWithL, ih]

lemma containsL_of_startsWithL {s p : List Char} (h : startsWithL s p = true) :
    containsL s p = true := by
  cases s with
  | nil => exact h
  | cons c rest => simp [containsL, h]

lemma containsL_append_left (a : List Char) {s p : List Char}
    (h : containsL s p = true) : containsL (a ++ s) p = true := by
  induction a with
  | nil => simpa using h
  | cons c t ih => simp [containsL, ih]

lemma mkUserPrompt_contains (instr text : String) :
    containsL (mkUserPrompt instr text).data text.data = true := by
  show containsL
    (((instr ++ "\n\nText:\n").data ++ text.data) ++
      ("\n\nReturn EXACTLY using the structure provided." : String).data) text.data = true
  rw [List.append_assoc]
  exact containsL_append_left _
    (containsL_of_startsWithL (startsWithL_append text.data _))

/-- Claim C5: for every non-empty text and valid level, the prompt builder
yields the one constant system instruction (independent of level and text)
and a user instruction containing the input text verbatim, character for
character. -/
theorem build_prompts (text level : String) (htext : text ≠ "")
    (hlvl : level ∈ VALID_LEVELS) :
    build text level =
      some (system_prompt, mkUserPrompt ((level_instructions level).getD ("")) text) ∧
    containsL (mkUserPrompt ((level_instructions level).getD ("")) text).data text.data =
      true := by
  have hcase : level = "beginner" ∨ level = "intermediate" ∨ level = "advanced" := by
    simpa [VALID_LEVELS] using hlvl
  rcases hcase with rfl | rfl | rfl
  all_goals exact ⟨rfl, mkUserPrompt_contains _ _⟩

/-- Witness for C5 at a concrete text and the beginner level. -/
theorem build_prompts_witness :
    build ("hello world") ("beginner") =
      some (system_prompt,
        mkUserPrompt ((level_instructions ("beginner")).getD ("")) ("hello world")) ∧
    containsL (mkUserPrompt ((level_instructions ("beginner")).getD ("")) ("hello world")).data
      ("hello world" : String).data = true :=
  build_prompts ("hello world") ("beginner") (by decide) (by decide)

lemma startsWithL_ne_first {s : List Char} {c d : Char} {p q : List Char}
    (h : startsWithL s (c :: p) = true) (hcd : ¬(c = d)) :
    startsWithL s (d :: q) = false := by
  cases s with
  | nil => simp [startsWithL] at h
  | cons x xs =>
    obtain ⟨rfl, -⟩ : x = c ∧ startsWithL xs p = true := by
      simpa [startsWithL] using h
    simp [startsWithL, hcd]

/-- Claim C6: a line whose trimmed form starts (case-insensitively, by
prefix) with a section keyword makes the parser transition into that
state while leaving every accumulator untouched — in any current state, so
a repeated label merely re-enters the same state — and a subsequent
non-blank non-label line in the SUMMARY state appends to the summary
accumulator. -/
theorem label_recognition (acc : Acc) (line : String) :
    (isSummaryLabel line = true →
      stepLine acc line = { acc with current := ParserSection.summary }) ∧
    (isExplanationLabel line = true →
      stepLine acc line = { acc with current := ParserSection.explanation }) ∧
    (isKeyPointsLabel line = true →
      stepLine acc line = { acc with current := ParserSection.keypoints }) ∧
    (acc.current = ParserSection.summary → isLabel line = false → pstrip line ≠ "" →
      stepLine acc line = { acc with summary := acc.summary ++ pstrip line ++ " " }) := by
  refine ⟨?_, ?_, ?_, ?_⟩
  · intro h
    simp [stepLine, h]
  · intro h
    have h' : startsWithL (pupper (pstrip line)).data
        ('E' :: ("XPLANATION" : String).data) = true := h
    have hs : isSummaryLabel line = false := startsWithL_ne_first h' (by decide)
    simp [stepLine, hs, h]
  · intro h
    have h' : startsWithL (pupper (pstrip line)).data
        ('K' :: ("EY POINTS" : String).data) = true := h
    have hs : isSummaryLabel line = false := startsWithL_ne_first h' (by decide)
    have he : isExplanationLabel line = false := startsWithL_ne_first h' (by decide)
    simp [stepLine, hs, he, h]
  · intro hcur hno hne
    obtain ⟨hs, he, hk⟩ := isLabel_false hno
    obtain ⟨s, e, kp, cur⟩ := acc
    simp only [Acc.current] at hcur
    subst hcur
    simp [stepLine, hs, he, hk, hne]

/-- Witness for C6: the mixed-case line Summary transitions; the exact line
SUMMARY followed by a colon re-enters the state leaving the accumulator
untouched; a content line then appends to it. -/
theorem label_recognition_witness :
    stepLine initAcc ("Summary") = { initAcc with current := ParserSection.summary } ∧
    stepLine { initAcc with summary := "a ", current := ParserSection.summary } ("SUMMARY:") =
      { initAcc with summary := "a ", current := ParserSection.summary } ∧
    stepLine { initAcc with summary := "a ", current := ParserSection.summary } ("b") =
      { initAcc with summary := "a b ", current := ParserSection.summary } := by
  refine ⟨(label_recognition initAcc ("Summary")).1 (by decide), ?_, ?_⟩
  · exact ((label_recognition
      { initAcc with summary := "a ", current := ParserSection.summary } ("SUMMARY:")).1
        (by decide)).trans (by decide)
  · exact ((label_recognition
      { initAcc with summary := "a ", current := ParserSection.summary } ("b")).2.2.2
        rfl (by decide) (by decide)).trans (by decide)

/-- Claim C7: when authorization passes, a request whose text strips to the
empty string is rejected with the bad-request validation error, whatever
the completion oracle — so no upstream call is made. -/
theorem empty_text_rejected (internalApiKey xApiKey : Option String) (req : ExplainRequest)
    (complete : String → String → Except String (Option String))
    (hauth : verify_api_key internalApiKey xApiKey = Except.ok ())
    (htext : pstrip req.text = "") :
    explain internalApiKey xApiKey req complete =
      Except.error (ApiError.badRequest ("Text cannot be empty.")) := by
  simp [explain, validateAndBuild, hauth, htext]

/-- Witness for C7 at a whitespace-only text in dev mode. -/
theorem empty_text_rejected_witness :
    explain Option.none Option.none { text := "   ", level := "beginner" } sampleComplete =
      Except.error (ApiError.badRequest ("Text cannot be empty.")) :=
  empty_text_rejected Option.none Option.none { text := "   ", level := "beginner" }
    sampleComplete rfl (by decide)

/-- Claim C8: the requested level is lowercased before matching, a level
normalizing to beginner selects the beginner framing instruction, and a
level whose normalization is not in the valid set is rejected with the
bad-request validation error independently of the completion oracle. -/
theorem level_normalization_and_strictness (internalApiKey xApiKey : Option String)
    (req : ExplainRequest) (complete : String → String → Except String (Option String))
    (hauth : verify_api_key internalApiKey xApiKey = Except.ok ())
    (htext : pstrip req.text ≠ "") :
    (plower req.level = "beginner" →
      validateAndBuild internalApiKey xApiKey req =
        Except.ok ("beginner", system_prompt, mkUserPrompt beginnerInstruction req.text)) ∧
    (plower req.level ∉ VALID_LEVELS →
      explain internalApiKey xApiKey req complete =
        Except.error
          (ApiError.badRequest
            ("Invalid level. Choose: beginner, intermediate, or advanced."))) := by
  constructor
  · intro hl
    simp [validateAndBuild, hauth, htext, hl, VALID_LEVELS, level_instructions]
  · intro hl
    simp [explain, validateAndBuild, hauth, htext, hl]

/-- Witness for C8: the all-caps level BEGINNER normalizes and selects the
beginner instruction; the level expert is rejected. -/
theorem level_normalization_and_strictness_witness :
    validateAndBuild Option.none Option.none { text := "hi", level := "BEGINNER" } =
      Except.ok ("beginner", system_prompt, mkUserPrompt beginnerInstruction ("hi")) ∧
    explain Option.none Option.none { text := "hi", level := "expert" } sampleComplete =
      Except.error
        (ApiError.badRequest ("Invalid level. Choose: beginner, intermediate, or advanced.")) :=
  ⟨(level_normalization_and_strictness Option.none Option.none
      { text := "hi", level := "BEGINNER" } sampleComplete rfl (by decide)).1 (by decide),
   (level_normalization_and_strictness Option.none Option.none
      { text := "hi", level := "expert" } sampleComplete rfl (by decide)).2 (by decide)⟩

/-- Claim C9: with a configured secret, a request whose presented header
differs from it fails with the unauthorized error independently of the
completion oracle (so before any external call); with no configured secret
the authorization step passes for every presented header. -/
theorem authorization_gate (k : String) (xApiKey : Option String) (req : ExplainRequest)
    (complete : String → String → Except String (Option String)) :
    (xApiKey ≠ some k →
      explain (some k) xApiKey req complete =
        Except.error (ApiError.unauthorized ("Invalid or missing API key"))) ∧
    verify_api_key Option.none xApiKey = Except.ok () := by
  constructor
  · intro hne
    simp [explain, validateAndBuild, verify_api_key, hne]
  · rfl

/-- Witness for C9 at a configured secret and a mismatched header. -/
theorem authorization_gate_witness :
    explain (some ("s3cret")) (some ("wrong")) { text := "hi", level := "beginner" }
        sampleComplete =
      Except.error (ApiError.unauthorized ("Invalid or missing API key")) ∧
    verify_api_key Option.none (some ("wrong")) = Except.ok () :=
  ⟨(authorization_gate ("s3cret") (some ("wrong")) { text := "hi", level := "beginner" }
      sampleComplete).1 (by decide),
   (authorization_gate ("s3cret") (some ("wrong")) { text := "hi", level := "beginner" }
      sampleComplete).2⟩

/-- Claim C10: a key-points section whose only bullet line is a bare dash
produces a key-points sequence whose single entry is the empty string — the
fallback guarantees a non-empty sequence, not non-empty entries. -/
theorem keypoint_entry_may_be_empty :
    (parse ("KEY POINTS:\n-")).key_points = [""] ∧
    "" ∈ (parse ("KEY POINTS:\n-")).key_points := by
  decide

end Explainify
